import Mathlib

/-!
# Verification of the `@reach/ui` listbox state machine

Shallow embedding of `src/packages/listbox/src/machine.ts`: an `@xstate/fsm`
machine with five states, a context record, and guarded transitions.  DOM
facts that guards consult (the owner document's active element and the
`Node.contains` relation) are modelled abstractly by a `Dom` record carried
on the `Blur` event, mirroring how the adapter attaches live element handles
to every dispatched event.  Focus requests and caller-supplied callback
invocations are modelled as an emitted effect list.
-/

namespace Listbox

/-- Abstract DOM element handle (object identity only matters). -/
abbrev Elem := Nat

/-- `ListboxValue` from `types.ts` (a string option value). -/
abbrev ListboxValue := String

/-- The `refs` record attached to every event by the machine host adapter:
`{ button, input, list, popover }`, each possibly `null`. -/
structure Refs where
  button : Option Elem
  input : Option Elem
  list : Option Elem
  popover : Option Elem
deriving Repr, DecidableEq

/-- An option descriptor from the descendants registry:
`{ value, label, disabled, element }`. -/
structure ListboxOption where
  value : ListboxValue
  label : String
  disabled : Bool
  element : Option Elem
deriving Repr, DecidableEq

/-- The machine context (`ListboxStateData`). -/
structure ListboxStateData where
  value : Option ListboxValue
  navigationValue : Option ListboxValue
  typeaheadQuery : Option String
  options : List ListboxOption
  refs : Refs
deriving Repr, DecidableEq

/-- Abstract snapshot of the owner document at the moment an event fires:
its active element and the `Node.contains` relation (`contains p c` means
element `p` contains element `c`; in the DOM a node contains itself). -/
structure Dom where
  activeElement : Option Elem
  contains : Elem → Elem → Bool

/-- JS `String.prototype.toLowerCase` (character-wise lowering). -/
def jsToLowerCase (s : String) : String := ⟨s.data.map Char.toLower⟩

/-- JS `String.prototype.startsWith`. -/
def jsStartsWith (s pre : String) : Bool := pre.data.isPrefixOf s.data

/-- `GetDerivedData` payload: a partial context patch (`event.data`), merged
shallowly into context with `refs` merged one level deep. `some x` means the
field is present in the payload with value `x`. -/
structure RefsPatch where
  button : Option (Option Elem) := none
  input : Option (Option Elem) := none
  list : Option (Option Elem) := none
  popover : Option (Option Elem) := none

structure DerivedData where
  value : Option (Option ListboxValue) := none
  navigationValue : Option (Option ListboxValue) := none
  typeaheadQuery : Option (Option String) := none
  options : Option (List ListboxOption) := none
  refs : Option RefsPatch := none

/-- The five machine states (`ListboxStates`). -/
inductive ListboxStates where
  | Idle
  | Navigating
  | NavigatingWithKeys
  | Searching
  | Interacting
deriving Repr, DecidableEq

/-- The machine events (`ListboxEvents`), each with the payload the actions
and guards read.  The adapter attaches `refs` to every event; only `Blur`
consults them (together with the document snapshot), so only `Blur` carries
them here.  `hasCallback` models whether the optional `event.callback` was
supplied; the commit events carry the raw `event.value` (possibly absent)
and the `event.disabled` flag the guard reads. -/
inductive ListboxEvent where
  | ButtonMouseDown
  | ButtonMouseUp
  | Blur (refs : Refs) (relatedTarget : Option Elem) (dom : Dom)
  | ClearNavSelection
  | ClearTypeahead
  | GetDerivedData (data : DerivedData)
  | KeyDownEscape
  | KeyDownEnter (value : Option ListboxValue) (hasCallback : Bool) (disabled : Bool)
  | KeyDownSpace (value : Option ListboxValue) (hasCallback : Bool) (disabled : Bool)
  | KeyDownNavigate (value : Option ListboxValue)
  | KeyDownSearch (query : String)
  | KeyDownTab
  | KeyDownShiftTab
  | Navigate (value : Option ListboxValue)
  | OptionMouseEnter (value : Option ListboxValue)
  | ValueChange (value : Option ListboxValue) (hasCallback : Bool)
  | OptionStartClick
  | OptionFinishClick (value : Option ListboxValue) (hasCallback : Bool) (disabled : Bool)
  | PopoverPointerDown
  | PopoverPointerUp
  | UpdateAfterTypeahead (query : String) (hasCallback : Bool)

/-- Observable side effects of a transition: focus requests and invocations
of the caller-supplied callback (with the argument it receives). -/
inductive Effect where
  | focusButton
  | focusList
  | focusNavOption
  | invokeCallback (value : Option ListboxValue)
deriving Repr, DecidableEq

/-- `popover.contains(x)` where `x` may be `null` (`Node.contains(null)` is
`false`). -/
def domContains (dom : Dom) (p : Elem) : Option Elem → Bool
  | some x => dom.contains p x
  | none => false

/-- Guard `listboxLostFocus`: on `Blur`,
`activeElement !== list && popover && !popover.contains(relatedTarget || activeElement)`.
`relatedTarget || activeElement` is JS short-circuit: the related target when
non-null, else the active element. -/
def listboxLostFocus (data : ListboxStateData) (event : ListboxEvent) : Bool :=
  match event with
  | .Blur refs relatedTarget dom =>
    decide (dom.activeElement ≠ refs.list) &&
      (match refs.popover with
        | some p => !domContains dom p (relatedTarget.orElse fun _ => dom.activeElement)
        | none => false)
  | _ => false

/-- Guard `optionIsActive`: some tracked option's element is the owner
document's active element (JS `element === ownerDocument.activeElement`). -/
def optionIsActive (data : ListboxStateData) (dom : Dom) : Bool :=
  (data.options.find? fun o => o.element == dom.activeElement).isSome

/-- Guard `optionIsSelectable`: blocked when the event marks the option
disabled; otherwise requires `data.navigationValue != null`. -/
def optionIsSelectable (data : ListboxStateData) (disabled : Bool) : Bool :=
  if disabled then false else data.navigationValue.isSome

/-- `findOptionFromTypeahead`: first option (in order) that is not disabled,
has a truthy label, and whose lowercased label starts with the lowercased
query; `null` when the query is falsy or nothing qualifies. -/
def findOptionFromTypeahead (options : List ListboxOption) (string : String) :
    Option ListboxOption :=
  if string = "" then none
  else
    options.find? fun o =>
      !o.disabled && !(o.label == "") &&
        jsStartsWith (jsToLowerCase o.label) (jsToLowerCase string)

/-- The callback effect `event.callback && event.callback(v)`. -/
def callbackEffect (hasCallback : Bool) (v : Option ListboxValue) : List Effect :=
  if hasCallback then [.invokeCallback v] else []

/-- Action `setTypeahead`: `typeaheadQuery := (typeaheadQuery || "") + query`. -/
def setTypeahead (data : ListboxStateData) (query : String) : ListboxStateData :=
  { data with typeaheadQuery := some ((data.typeaheadQuery.getD "") ++ query) }

/-- Outcome of a transition: target state, new context, emitted effects. -/
abbrev Outcome := ListboxStates × ListboxStateData × List Effect

/-- Action list of Idle's `UpdateAfterTypeahead`: `setValueFromTypeahead`
resolves a match from `event.query`, assigns `value`, and invokes the event
callback with the matched value. -/
def setValueFromTypeahead (data : ListboxStateData) (query : String)
    (hasCallback : Bool) : ListboxStateData × List Effect :=
  if query ≠ "" then
    match findOptionFromTypeahead data.options query with
    | some m =>
      if !m.disabled then
        ({ data with value := some m.value }, callbackEffect hasCallback (some m.value))
      else (data, [])
    | none => (data, [])
  else (data, [])

/-- Action `setNavSelectionFromTypeahead`: like `setValueFromTypeahead` but
assigns `navigationValue` and invokes no callback. -/
def setNavSelectionFromTypeahead (data : ListboxStateData) (query : String) :
    ListboxStateData :=
  if query ≠ "" then
    match findOptionFromTypeahead data.options query with
    | some m =>
      if !m.disabled then { data with navigationValue := some m.value } else data
    | none => data
  else data

/-- `GetDerivedData` action:
`{...ctx, ...event.data, refs: {...ctx.refs, ...(event.data.refs || \x7b\x7d)}}`. -/
def mergeDerivedData (ctx : ListboxStateData) (d : DerivedData) : ListboxStateData where
  value := d.value.getD ctx.value
  navigationValue := d.navigationValue.getD ctx.navigationValue
  typeaheadQuery := d.typeaheadQuery.getD ctx.typeaheadQuery
  options := d.options.getD ctx.options
  refs :=
    match d.refs with
    | some p =>
      { button := p.button.getD ctx.refs.button
        input := p.input.getD ctx.refs.input
        list := p.list.getD ctx.refs.list
        popover := p.popover.getD ctx.refs.popover }
    | none => ctx.refs

/-- `commonEvents`, spread into every state: `GetDerivedData` (merge the
payload, no target) and `ValueChange` (`[assignValue, selectOption]`, no
target).  `none` means the event has no entry in this table. -/
def commonEvents (s : ListboxStates) (ctx : ListboxStateData) (e : ListboxEvent) :
    Option Outcome :=
  match e with
  | .GetDerivedData d => some (s, mergeDerivedData ctx d, [])
  | .ValueChange v hasCallback =>
    some (s, { ctx with value := v }, callbackEffect hasCallback v)
  | _ => none

/-- The shared commit transition of `openEvents`
(`OptionFinishClick` / `KeyDownEnter` / `KeyDownSpace`): guarded by
`optionIsSelectable`; on success the actions
`[assignValue, selectOption, focusButton, clearTypeaheadQuery]` run and the
machine goes to Idle; on guard failure no transition is taken. -/
def commitTransition (s : ListboxStates) (ctx : ListboxStateData)
    (v : Option ListboxValue) (hasCallback disabled : Bool) : Option Outcome :=
  if optionIsSelectable ctx disabled then
    some (.Idle, { ctx with value := v, typeaheadQuery := none },
      callbackEffect hasCallback v ++ [.focusButton])
  else none

/-- `openEvents`, spread into the four non-Idle states. -/
def openEvents (s : ListboxStates) (ctx : ListboxStateData) (e : ListboxEvent) :
    Option Outcome :=
  match e with
  | .ClearNavSelection =>
    some (s, { ctx with navigationValue := none }, [.focusList])
  | .OptionFinishClick v hasCallback disabled =>
    commitTransition s ctx v hasCallback disabled
  | .KeyDownEnter v hasCallback disabled =>
    commitTransition s ctx v hasCallback disabled
  | .KeyDownSpace v hasCallback disabled =>
    commitTransition s ctx v hasCallback disabled
  | .ButtonMouseDown => some (.Idle, ctx, [.focusButton])
  | .KeyDownEscape => some (.Idle, ctx, [.focusButton])
  | _ => none

/-- The `Blur` guard cascade shared (with a state-specific middle target) by
the four open states: `listboxLostFocus` → Idle clearing typeahead, else
`optionIsActive` → `navTarget`, else Interacting clearing typeahead. -/
def blurCascade (navTarget : ListboxStates) (ctx : ListboxStateData)
    (refs : Refs) (relatedTarget : Option Elem) (dom : Dom) : Outcome :=
  if listboxLostFocus ctx (.Blur refs relatedTarget dom) then
    (.Idle, { ctx with typeaheadQuery := none }, [])
  else if optionIsActive ctx dom then (navTarget, ctx, [])
  else (.Interacting, { ctx with typeaheadQuery := none }, [])

/-- The state-specific entries of each state's `on` table (these override
`openEvents` / `commonEvents`, which were spread first). -/
def stateEvents (s : ListboxStates) (ctx : ListboxStateData) (e : ListboxEvent) :
    Option Outcome :=
  match s, e with
  | .Idle, .ButtonMouseDown =>
    some (.Navigating, { ctx with navigationValue := ctx.value }, [.focusButton])
  | .Idle, .KeyDownSpace _ _ _ =>
    some (.NavigatingWithKeys, { ctx with navigationValue := ctx.value },
      [.focusNavOption])
  | .Idle, .KeyDownSearch q => some (.Idle, setTypeahead ctx q, [])
  | .Idle, .UpdateAfterTypeahead q hasCallback =>
    let r := setValueFromTypeahead ctx q hasCallback
    some (.Idle, r.1, r.2)
  | .Idle, .ClearTypeahead => some (.Idle, { ctx with typeaheadQuery := some "" }, [])
  | .Idle, .KeyDownNavigate v =>
    some (.NavigatingWithKeys,
      { ctx with navigationValue := v, typeaheadQuery := none }, [.focusNavOption])
  | .Interacting, .Blur refs relatedTarget dom =>
    some (blurCascade .Navigating ctx refs relatedTarget dom)
  | .Interacting, .Navigate v =>
    some (.Navigating, { ctx with navigationValue := v }, [.focusNavOption])
  | .Interacting, .KeyDownNavigate v =>
    some (.NavigatingWithKeys,
      { ctx with navigationValue := v, typeaheadQuery := none }, [.focusNavOption])
  | .Navigating, .Blur refs relatedTarget dom =>
    some (blurCascade .Navigating ctx refs relatedTarget dom)
  | .Navigating, .ButtonMouseUp =>
    some (.Navigating, { ctx with navigationValue := ctx.value },
      [.focusList, .focusNavOption])
  | .Navigating, .Navigate v =>
    some (.Navigating, { ctx with navigationValue := v }, [.focusNavOption])
  | .Navigating, .KeyDownNavigate v =>
    some (.NavigatingWithKeys,
      { ctx with navigationValue := v, typeaheadQuery := none }, [.focusNavOption])
  | .Navigating, .KeyDownSearch q => some (.NavigatingWithKeys, setTypeahead ctx q, [])
  | .Navigating, .UpdateAfterTypeahead q _ =>
    some (.Navigating, setNavSelectionFromTypeahead ctx q, [.focusNavOption])
  | .Navigating, .ClearTypeahead =>
    some (.Navigating, { ctx with typeaheadQuery := some "" }, [])
  | .NavigatingWithKeys, .Blur refs relatedTarget dom =>
    some (blurCascade .NavigatingWithKeys ctx refs relatedTarget dom)
  | .NavigatingWithKeys, .Navigate v =>
    some (.Navigating, { ctx with navigationValue := v }, [.focusNavOption])
  | .NavigatingWithKeys, .KeyDownNavigate v =>
    some (.NavigatingWithKeys,
      { ctx with navigationValue := v, typeaheadQuery := none }, [.focusNavOption])
  | .NavigatingWithKeys, .KeyDownSearch q =>
    some (.NavigatingWithKeys, setTypeahead ctx q, [])
  | .NavigatingWithKeys, .UpdateAfterTypeahead q _ =>
    some (.NavigatingWithKeys, setNavSelectionFromTypeahead ctx q, [.focusNavOption])
  | .NavigatingWithKeys, .ClearTypeahead =>
    some (.NavigatingWithKeys, { ctx with typeaheadQuery := some "" }, [])
  | .Searching, .Blur refs relatedTarget dom =>
    some (blurCascade .Searching ctx refs relatedTarget dom)
  | .Searching, .Navigate v =>
    some (.Navigating,
      { ctx with navigationValue := v, typeaheadQuery := none }, [.focusNavOption])
  | .Searching, .KeyDownNavigate v =>
    some (.NavigatingWithKeys,
      { ctx with navigationValue := v, typeaheadQuery := none }, [.focusNavOption])
  | .Searching, .KeyDownSearch q => some (.NavigatingWithKeys, setTypeahead ctx q, [])
  | .Searching, .UpdateAfterTypeahead q _ =>
    some (.Searching, setNavSelectionFromTypeahead ctx q, [.focusNavOption])
  | .Searching, .ClearTypeahead =>
    some (.Searching, { ctx with typeaheadQuery := some "" }, [])
  | _, _ => none

/-- Whether a state spreads `openEvents` into its `on` table (all but Idle). -/
def isOpenState (s : ListboxStates) : Bool :=
  match s with
  | .Idle => false
  | _ => true

/-- One machine transition: look up the event in the state's `on` table
(state-specific entries override `openEvents`, which override
`commonEvents` — the key sets are disjoint, so lookup order models the JS
object spread); an event with no matching entry, or whose guard fails, is
a no-op leaving state and context unchanged with no effects. -/
def step (s : ListboxStates) (ctx : ListboxStateData) (e : ListboxEvent) : Outcome :=
  match stateEvents s ctx e with
  | some r => r
  | none =>
    match (if isOpenState s then openEvents s ctx e else none) with
    | some r => r
    | none =>
      match commonEvents s ctx e with
      | some r => r
      | none => (s, ctx, [])

/-- The middle (`optionIsActive`) target of each open state's `Blur`
cascade: Interacting returns to Navigating, the other open states stay. -/
def blurNavTarget : ListboxStates → ListboxStates
  | .Interacting => .Navigating
  | s => s

/-- The typeahead resolution algorithm as the spec words it: scan `options`
in order and return the first option whose label, case-insensitively,
starts with the query and which is not disabled; no match when the query is
empty or nothing qualifies. -/
def findOptionSpec (options : List ListboxOption) (q : String) :
    Option ListboxOption :=
  if q = "" then none
  else options.find? fun o =>
    !o.disabled && jsStartsWith (jsToLowerCase o.label) (jsToLowerCase q)

/-- Which events can write `context.value`: the explicit value-change
events, plus a `GetDerivedData` whose payload patch carries a `value`
field. -/
def mayChangeValue (e : ListboxEvent) : Bool :=
  match e with
  | .ValueChange _ _ => true
  | .OptionFinishClick _ _ _ => true
  | .KeyDownEnter _ _ _ => true
  | .KeyDownSpace _ _ _ => true
  | .UpdateAfterTypeahead _ _ => true
  | .GetDerivedData d => d.value.isSome
  | _ => false

/-! ## Concrete data used by witnesses and counterexamples -/

def appleOpt : ListboxOption := ⟨"1", "Apple", false, some 10⟩

def bananaOpt : ListboxOption := ⟨"2", "Banana", false, some 11⟩

def noRefs : Refs := ⟨none, none, none, none⟩

/-- A context with the Apple/Banana option registry and nothing selected. -/
def sampleCtx : ListboxStateData :=
  { value := none, navigationValue := none, typeaheadQuery := none,
    options := [appleOpt, bananaOpt], refs := noRefs }

/-- `sampleCtx` mid-search, with an accumulated typeahead query. -/
def blurCtx : ListboxStateData := { sampleCtx with typeaheadQuery := some "a" }

/-- Event refs where the list is element 1 and the popover element 2. -/
def blurRefs : Refs := { noRefs with list := some 1, popover := some 2 }

/-- Event refs with the popover handle missing. -/
def noPopoverRefs : Refs := { noRefs with list := some 1 }

/-- A document whose active element is element 1 (the list of `blurRefs`)
and in which no element contains any other. -/
def listActiveDom : Dom := ⟨some 1, fun _ _ => false⟩

/-- A document whose active element is element 5 and in which no element
contains any other. -/
def outsideDom : Dom := ⟨some 5, fun _ _ => false⟩

/-! ## Helper lemmas -/

theorem string_data_nil {q : String} (h : q.data = []) : q = "" := by
  cases q; simp_all

theorem isPrefixOf_nil_false {l : List Char} (h : l ≠ []) :
    l.isPrefixOf ([] : List Char) = false := by
  cases l with
  | nil => simp at h
  | cons a as => rfl

theorem jsToLowerCase_data_ne {q : String} (h : q ≠ "") :
    (jsToLowerCase q).data ≠ [] := by
  simp only [jsToLowerCase]
  intro hc
  simp at hc
  exact h (string_data_nil hc)

theorem jsStartsWith_empty_label {q : String} (h : q ≠ "") :
    jsStartsWith (jsToLowerCase "") (jsToLowerCase q) = false := by
  simp only [jsStartsWith]
  have hd : (jsToLowerCase "").data = ([] : List Char) := rfl
  rw [hd]
  exact isPrefixOf_nil_false (jsToLowerCase_data_ne h)

theorem find?_congr_pred {α} {p q : α → Bool} (l : List α)
    (h : ∀ x ∈ l, p x = q x) : l.find? p = l.find? q := by
  induction l with
  | nil => rfl
  | cons a as ih =>
    simp only [List.find?]
    rw [h a (List.mem_cons_self a as)]
    cases hq : q a with
    | true => rfl
    | false => exact ih fun x hx => h x (List.mem_cons_of_mem a hx)

theorem findOption_eq_spec (options : List ListboxOption) (q : String) :
    findOptionFromTypeahead options q = findOptionSpec options q := by
  unfold findOptionFromTypeahead findOptionSpec
  split
  · rfl
  · rename_i hq
    apply find?_congr_pred
    intro o _
    by_cases hl : o.label = ""
    · simp [hl, jsStartsWith_empty_label hq]
    · have hb : (o.label == "") = false := beq_eq_false_iff_ne.mpr hl
      simp [hb]

theorem findOption_query_ne_empty {options : List ListboxOption} {q : String}
    {m : ListboxOption} (h : findOptionFromTypeahead options q = some m) :
    q ≠ "" := by
  intro hq
  subst hq
  simp [findOptionFromTypeahead] at h

theorem findOption_not_disabled {options : List ListboxOption} {q : String}
    {m : ListboxOption} (h : findOptionFromTypeahead options q = some m) :
    m.disabled = false := by
  unfold findOptionFromTypeahead at h
  split at h
  · exact absurd h (by simp)
  · have := List.find?_some h
    simp only [Bool.and_eq_true, Bool.not_eq_true'] at this
    exact this.1.1

/-- Every open state's `Blur` entry is the shared guard cascade with that
state's middle target. -/
theorem step_blur (s : ListboxStates) (hs : s ≠ .Idle) (ctx : ListboxStateData)
    (refs : Refs) (rt : Option Elem) (dom : Dom) :
    step s ctx (.Blur refs rt dom) = blurCascade (blurNavTarget s) ctx refs rt dom := by
  cases s
  · exact absurd rfl hs
  all_goals rfl

/-! ## C1 -/

/-- C1 counterexample: in Navigating, a `Blur` whose `relatedTarget`
(element 3) is outside the popover (element 2) and is not the list
(element 1) does NOT transition to Idle when the owner document's active
element is the list: the guard tests the active element, not the related
target, against the list, so the cascade falls through to Interacting. -/
theorem blur_outside_relatedTarget_not_idle :
    blurRefs.popover = some 2 ∧ listActiveDom.contains 2 3 = false ∧
      (some 3 : Option Elem) ≠ blurRefs.list ∧
      step .Navigating blurCtx (.Blur blurRefs (some 3) listActiveDom) =
        (.Interacting, { blurCtx with typeaheadQuery := none }, []) :=
  ⟨rfl, rfl, by decide, rfl⟩

/-- C1 (amended): in every state except Idle, `Blur` is resolved by the
ordered guard cascade (a) `listboxLostFocus` (the owner document's active
element is not the list, the popover handle is present, and the popover
does not contain `relatedTarget` — or, when `relatedTarget` is null, the
active element) → Idle, clearing typeahead; else (b) `optionIsActive` (the
active element is a tracked option's element) → stay in / return to the
state's navigating target; else (c) → Interacting, clearing typeahead.  In
particular, `Blur` with `relatedTarget` outside the popover transitions to
Idle and clears typeahead, provided additionally that the popover handle is
present and the active element is not the list. -/
theorem blur_guard_cascade (s : ListboxStates) (hs : s ≠ .Idle)
    (ctx : ListboxStateData) (refs : Refs) (rt : Option Elem) (dom : Dom) :
    (listboxLostFocus ctx (.Blur refs rt dom) = true →
      step s ctx (.Blur refs rt dom) =
        (.Idle, { ctx with typeaheadQuery := none }, []))
    ∧ (listboxLostFocus ctx (.Blur refs rt dom) = false →
        optionIsActive ctx dom = true →
        step s ctx (.Blur refs rt dom) = (blurNavTarget s, ctx, []))
    ∧ (listboxLostFocus ctx (.Blur refs rt dom) = false →
        optionIsActive ctx dom = false →
        step s ctx (.Blur refs rt dom) =
          (.Interacting, { ctx with typeaheadQuery := none }, []))
    ∧ (∀ p t, refs.popover = some p → rt = some t → dom.contains p t = false →
        dom.activeElement ≠ refs.list →
        step s ctx (.Blur refs rt dom) =
          (.Idle, { ctx with typeaheadQuery := none }, [])) := by
  rw [step_blur s hs]
  refine ⟨fun h1 => ?_, fun h1 h2 => ?_, fun h1 h2 => ?_,
    fun p t hp ht hcont hne => ?_⟩
  · simp [blurCascade, h1]
  · simp [blurCascade, h1, h2]
  · simp [blurCascade, h1, h2]
  · have hlf : listboxLostFocus ctx (.Blur refs rt dom) = true := by
      subst ht
      simp [listboxLostFocus, hp, domContains, Option.orElse, hcont, hne]
    simp [blurCascade, hlf]

/-- C1 witness: the Idle branch of the cascade at a concrete input. -/
theorem blur_guard_cascade_witness :
    step .Navigating blurCtx (.Blur blurRefs (some 3) outsideDom) =
      (.Idle, { blurCtx with typeaheadQuery := none }, []) :=
  (blur_guard_cascade .Navigating (by decide) blurCtx blurRefs (some 3)
    outsideDom).2.2.2 2 3 rfl rfl rfl (by decide)

/-! ## C3 -/

/-- C3 counterexample: with the popover handle missing, `listboxLostFocus`
evaluates to `false` (not `true` as claimed): `popover && ...` short-circuits
to a falsy value. -/
theorem missing_popover_guard_false :
    noPopoverRefs.popover = none ∧
      listboxLostFocus blurCtx (.Blur noPopoverRefs (some 3) outsideDom) = false :=
  ⟨rfl, rfl⟩

/-- C3 (amended): a missing popover handle makes `listboxLostFocus` `false`
(focus is treated as NOT having left), so a `Blur` from any open state with
no popover and no active option transitions to Interacting, not Idle. -/
theorem missing_popover_blur (ctx : ListboxStateData) (refs : Refs)
    (rt : Option Elem) (dom : Dom) (hp : refs.popover = none) :
    listboxLostFocus ctx (.Blur refs rt dom) = false
    ∧ (∀ s, s ≠ .Idle → optionIsActive ctx dom = false →
        step s ctx (.Blur refs rt dom) =
          (.Interacting, { ctx with typeaheadQuery := none }, [])) := by
  have hlf : listboxLostFocus ctx (.Blur refs rt dom) = false := by
    simp [listboxLostFocus, hp]
  refine ⟨hlf, fun s hs hact => ?_⟩
  rw [step_blur s hs]
  simp [blurCascade, hlf, hact]

/-- C3 witness: the amended behaviour at a concrete input. -/
theorem missing_popover_blur_witness :
    listboxLostFocus blurCtx (.Blur noPopoverRefs (some 3) outsideDom) = false ∧
      step .Navigating blurCtx (.Blur noPopoverRefs (some 3) outsideDom) =
        (.Interacting, { blurCtx with typeaheadQuery := none }, []) :=
  ⟨(missing_popover_blur blurCtx noPopoverRefs (some 3) outsideDom rfl).1,
   (missing_popover_blur blurCtx noPopoverRefs (some 3) outsideDom rfl).2
     .Navigating (by decide) (by decide)⟩

/-! ## C4 -/

/-- C4 counterexample: Interacting does not handle `KeyDownSearch`: the
event is a no-op (state stays Interacting, nothing is appended to the
typeahead query), contrary to the claimed transition to NavigatingWithKeys
with an appended query. -/
theorem interacting_drops_keydownsearch :
    step .Interacting sampleCtx (.KeyDownSearch "b") = (.Interacting, sampleCtx, [])
    ∧ sampleCtx.typeaheadQuery = none :=
  ⟨rfl, rfl⟩

/-- C4 (amended): Navigating, NavigatingWithKeys and Searching handle
`KeyDownSearch(char)` by transitioning to NavigatingWithKeys and appending
the character to the accumulated typeahead query; Interacting has no
`KeyDownSearch` entry, so there the event is a no-op. -/
theorem keydownsearch_routing (ctx : ListboxStateData) (q : String) :
    step .Navigating ctx (.KeyDownSearch q) =
      (.NavigatingWithKeys,
        { ctx with typeaheadQuery := some ((ctx.typeaheadQuery.getD "") ++ q) }, [])
    ∧ step .NavigatingWithKeys ctx (.KeyDownSearch q) =
        (.NavigatingWithKeys,
          { ctx with typeaheadQuery := some ((ctx.typeaheadQuery.getD "") ++ q) }, [])
    ∧ step .Searching ctx (.KeyDownSearch q) =
        (.NavigatingWithKeys,
          { ctx with typeaheadQuery := some ((ctx.typeaheadQuery.getD "") ++ q) }, [])
    ∧ step .Interacting ctx (.KeyDownSearch q) = (.Interacting, ctx, []) :=
  ⟨rfl, rfl, rfl, rfl⟩

/-! ## C7 -/

/-- C7 counterexample: in Navigating, `Navigate` leaves the accumulated
typeahead query untouched (it is not cleared as claimed). -/
theorem navigate_keeps_typeahead :
    blurCtx.typeaheadQuery = some "a" ∧
      step .Navigating blurCtx (.Navigate (some "2")) =
        (.Navigating, { blurCtx with navigationValue := some "2" }, [.focusNavOption]) :=
  ⟨rfl, rfl⟩

/-- C7 (amended): only Searching's `Navigate` clears the typeahead query;
in Interacting, Navigating and NavigatingWithKeys, `Navigate` sets
`navigationValue` and transitions to Navigating with the typeahead query
left unchanged. -/
theorem navigate_typeahead_clearing (ctx : ListboxStateData)
    (v : Option ListboxValue) :
    step .Searching ctx (.Navigate v) =
      (.Navigating, { ctx with navigationValue := v, typeaheadQuery := none },
        [.focusNavOption])
    ∧ step .Interacting ctx (.Navigate v) =
        (.Navigating, { ctx with navigationValue := v }, [.focusNavOption])
    ∧ step .Navigating ctx (.Navigate v) =
        (.Navigating, { ctx with navigationValue := v }, [.focusNavOption])
    ∧ step .NavigatingWithKeys ctx (.Navigate v) =
        (.Navigating, { ctx with navigationValue := v }, [.focusNavOption]) :=
  ⟨rfl, rfl, rfl, rfl⟩

/-- `blurCtx` with an option highlighted, used by commit scenarios. -/
def navCtx : ListboxStateData := { blurCtx with navigationValue := some "1" }

/-! ## C2 -/

/-- C2: from each open state, `OptionFinishClick` / `KeyDownEnter` /
`KeyDownSpace` guarded by `optionIsSelectable` (`navigationValue` non-null
and the event not marking the option disabled) commits: `value` := the
event's value, the caller-supplied callback is invoked with that value, the
typeahead query is cleared, and the machine transitions to Idle; when the
guard fails the event is a no-op leaving state and context unchanged. -/
theorem open_commit_events (s : ListboxStates) (hs : isOpenState s = true)
    (ctx : ListboxStateData) (v : Option ListboxValue) (hc dis : Bool)
    (e : ListboxEvent)
    (he : e = .OptionFinishClick v hc dis ∨ e = .KeyDownEnter v hc dis ∨
      e = .KeyDownSpace v hc dis) :
    (dis = false → ctx.navigationValue.isSome = true →
      step s ctx e = (.Idle, { ctx with value := v, typeaheadQuery := none },
        callbackEffect hc v ++ [.focusButton]))
    ∧ ((ctx.navigationValue = none ∨ dis = true) → step s ctx e = (s, ctx, [])) := by
  constructor
  · intro hd hnav
    obtain he | he | he := he <;> subst he <;> cases s <;>
      simp_all [step, stateEvents, openEvents, commitTransition,
        optionIsSelectable, commonEvents, isOpenState]
  · intro hfail
    obtain he | he | he := he <;> subst he <;> cases s <;>
      rcases hfail with hnav | hd <;>
      simp_all [step, stateEvents, openEvents, commitTransition,
        optionIsSelectable, commonEvents, isOpenState]

/-- C2 witness: a concrete commit from Searching. -/
theorem open_commit_events_witness :
    step .Searching navCtx (.OptionFinishClick (some "1") true false) =
      (.Idle, { navCtx with value := some "1", typeaheadQuery := none },
        callbackEffect true (some "1") ++ [.focusButton]) :=
  (open_commit_events .Searching rfl navCtx (some "1") true false _
    (Or.inl rfl)).1 rfl rfl

/-! ## C5 -/

/-- C5 counterexample: Interacting has no `UpdateAfterTypeahead` entry, so
even though the query "b" resolves to the Banana option, processing the
event in Interacting leaves `navigationValue` at `none` instead of updating
it to the match. -/
theorem interacting_typeahead_not_updated :
    findOptionFromTypeahead sampleCtx.options "b" = some bananaOpt
    ∧ bananaOpt.value = "2"
    ∧ sampleCtx.navigationValue = none
    ∧ step .Interacting sampleCtx (.UpdateAfterTypeahead "b" true) =
        (.Interacting, sampleCtx, []) :=
  ⟨by decide, rfl, rfl, rfl⟩

/-- C5 (amended): when `UpdateAfterTypeahead` carries a query that resolves
to a match, Idle commits the match's value and invokes the event callback
with it while staying in Idle; Navigating, NavigatingWithKeys and Searching
update only `navigationValue` to the match, staying put; Interacting has no
entry for the event and drops it.  The concrete Apple/Banana run from the
spec holds: `KeyDownSearch("b")` then `UpdateAfterTypeahead("b")` from Idle
commits value "2" and invokes the callback with "2". -/
theorem update_after_typeahead (ctx : ListboxStateData) (q : String) (hc : Bool)
    (m : ListboxOption) (hm : findOptionFromTypeahead ctx.options q = some m) :
    step .Idle ctx (.UpdateAfterTypeahead q hc) =
      (.Idle, { ctx with value := some m.value }, callbackEffect hc (some m.value))
    ∧ (∀ s, (s = .Navigating ∨ s = .NavigatingWithKeys ∨ s = .Searching) →
        step s ctx (.UpdateAfterTypeahead q hc) =
          (s, { ctx with navigationValue := some m.value }, [.focusNavOption]))
    ∧ step .Interacting ctx (.UpdateAfterTypeahead q hc) = (.Interacting, ctx, [])
    ∧ (step .Idle sampleCtx (.KeyDownSearch "b") =
        (.Idle, { sampleCtx with typeaheadQuery := some "b" }, [])
      ∧ step .Idle { sampleCtx with typeaheadQuery := some "b" }
          (.UpdateAfterTypeahead "b" true) =
          (.Idle, { sampleCtx with value := some "2", typeaheadQuery := some "b" },
            [.invokeCallback (some "2")])) := by
  have hq := findOption_query_ne_empty hm
  have hd := findOption_not_disabled hm
  refine ⟨?_, fun s hs => ?_, rfl, by decide, by decide⟩
  · simp [step, stateEvents, setValueFromTypeahead, hq, hm, hd]
  · obtain hs | hs | hs := hs <;> subst hs <;>
      simp [step, stateEvents, setNavSelectionFromTypeahead, hq, hm, hd]

/-- C5 witness: the Idle resolution at the spec's concrete input. -/
theorem update_after_typeahead_witness :
    step .Idle sampleCtx (.UpdateAfterTypeahead "b" true) =
      (.Idle, { sampleCtx with value := some "2" }, [.invokeCallback (some "2")]) :=
  (update_after_typeahead sampleCtx "b" true bananaOpt (by decide)).1

/-! ## C6 -/

/-- C6: the code's typeahead resolution coincides with the spec's
algorithm (first non-disabled option, in list order, whose label
case-insensitively starts with the query; no match on an empty query or
when nothing qualifies), and whenever resolution yields no match,
processing `UpdateAfterTypeahead` leaves both `value` and `navigationValue`
unchanged in every state. -/
theorem typeahead_resolution :
    (∀ (options : List ListboxOption) (q : String),
      findOptionFromTypeahead options q = findOptionSpec options q)
    ∧ (∀ (s : ListboxStates) (ctx : ListboxStateData) (q : String) (hc : Bool),
        findOptionFromTypeahead ctx.options q = none →
        (step s ctx (.UpdateAfterTypeahead q hc)).2.1.value = ctx.value
        ∧ (step s ctx (.UpdateAfterTypeahead q hc)).2.1.navigationValue =
            ctx.navigationValue) := by
  refine ⟨findOption_eq_spec, fun s ctx q hc hnone => ?_⟩
  cases s <;>
    simp [step, stateEvents, setValueFromTypeahead, setNavSelectionFromTypeahead,
      hnone, commonEvents, openEvents, isOpenState]

/-- C6 witness: resolution and the unchanged-context property at a query
with no matching option. -/
theorem typeahead_resolution_witness :
    findOptionFromTypeahead sampleCtx.options "x" = findOptionSpec sampleCtx.options "x"
    ∧ (step .Navigating sampleCtx (.UpdateAfterTypeahead "x" true)).2.1.value =
        sampleCtx.value
    ∧ (step .Navigating sampleCtx (.UpdateAfterTypeahead "x" true)).2.1.navigationValue =
        sampleCtx.navigationValue :=
  ⟨typeahead_resolution.1 sampleCtx.options "x",
   (typeahead_resolution.2 .Navigating sampleCtx "x" true (by decide)).1,
   (typeahead_resolution.2 .Navigating sampleCtx "x" true (by decide)).2⟩

/-! ## C8 -/

/-- C8: in every state, `GetDerivedData` leaves the state tag unchanged and
produces exactly the old context shallow-merged with the payload's fields,
with `refs` merged one level deep (old refs entries survive unless the
payload's refs patch overrides them); no effects are emitted. -/
theorem get_derived_data_frame (s : ListboxStates) (ctx : ListboxStateData)
    (d : DerivedData) :
    step s ctx (.GetDerivedData d) =
      (s,
        { value := d.value.getD ctx.value,
          navigationValue := d.navigationValue.getD ctx.navigationValue,
          typeaheadQuery := d.typeaheadQuery.getD ctx.typeaheadQuery,
          options := d.options.getD ctx.options,
          refs :=
            match d.refs with
            | some p =>
              { button := p.button.getD ctx.refs.button,
                input := p.input.getD ctx.refs.input,
                list := p.list.getD ctx.refs.list,
                popover := p.popover.getD ctx.refs.popover }
            | none => ctx.refs }, []) := by
  cases s <;> rfl

/-! ## C9 -/

/-- C9 counterexample: `GetDerivedData` is not among the claim's explicit
value-change actions (`ValueChange`, the guarded commits, Idle's
`UpdateAfterTypeahead`), yet a payload carrying a `value` field changes
`context.value` from `none` to `some "9"`. -/
theorem get_derived_data_changes_value :
    sampleCtx.value = none ∧
      (step .Idle sampleCtx
        (.GetDerivedData { value := some (some "9") })).2.1.value = some "9" :=
  ⟨rfl, rfl⟩

/-- C9 (amended): `context.value` is changed only by the explicit
value-change actions (`ValueChange`, the guarded
`OptionFinishClick`/`KeyDownEnter`/`KeyDownSpace` commits, and
`UpdateAfterTypeahead` resolution) and by a `GetDerivedData` whose payload
includes a `value` field; every other event leaves `value` unchanged.  In
particular the round trip Idle → `ButtonMouseDown` → Navigating →
`KeyDownEscape` → Idle leaves `value` identical to its pre-sequence
value. -/
theorem value_explicit_change_only :
    (∀ (s : ListboxStates) (ctx : ListboxStateData) (e : ListboxEvent),
      mayChangeValue e = false → (step s ctx e).2.1.value = ctx.value)
    ∧ (∀ ctx : ListboxStateData,
        step .Idle ctx .ButtonMouseDown =
          (.Navigating, { ctx with navigationValue := ctx.value }, [.focusButton])
        ∧ step .Navigating { ctx with navigationValue := ctx.value } .KeyDownEscape =
            (.Idle, { ctx with navigationValue := ctx.value }, [.focusButton])) := by
  constructor
  · intro s ctx e h
    cases e <;> cases s <;>
      simp_all [step, stateEvents, openEvents, commonEvents, mayChangeValue,
        blurCascade, setTypeahead, mergeDerivedData, isOpenState] <;>
      (repeat' split) <;> simp_all
  · intro ctx
    exact ⟨rfl, rfl⟩

/-- C9 witness: a navigation event leaves `value` unchanged, and the
concrete open/close round trip. -/
theorem value_explicit_change_only_witness :
    (step .Navigating sampleCtx .ClearNavSelection).2.1.value = sampleCtx.value
    ∧ step .Idle sampleCtx .ButtonMouseDown =
        (.Navigating, { sampleCtx with navigationValue := sampleCtx.value },
          [.focusButton]) :=
  ⟨value_explicit_change_only.1 .Navigating sampleCtx .ClearNavSelection rfl,
   (value_explicit_change_only.2 sampleCtx).1⟩

/-! ## C10 -/

/-- C10 counterexample: Interacting has no `ClearTypeahead` entry, so
processing `ClearTypeahead` there leaves `typeaheadQuery` at `none` rather
than setting it to the empty string. -/
theorem interacting_clear_typeahead_noop :
    sampleCtx.typeaheadQuery = none ∧
      step .Interacting sampleCtx .ClearTypeahead = (.Interacting, sampleCtx, []) ∧
      sampleCtx.typeaheadQuery ≠ some "" :=
  ⟨rfl, rfl, by decide⟩

/-- C10 (amended): the two typeahead-clearing actions are observably
different: in the states that handle it (all but Interacting, where the
event is a no-op), `ClearTypeahead` sets `typeaheadQuery` to the empty
string `""`, whereas the commit path and the Idle branch of the `Blur`
cascade (the `clearTypeaheadQuery` action) set it to `null`. -/
theorem clear_typeahead_observable (ctx : ListboxStateData) :
    (∀ s, s ≠ .Interacting →
      step s ctx .ClearTypeahead = (s, { ctx with typeaheadQuery := some "" }, []))
    ∧ step .Interacting ctx .ClearTypeahead = (.Interacting, ctx, [])
    ∧ (∀ (s : ListboxStates) (v : Option ListboxValue) (hc : Bool),
        isOpenState s = true → ctx.navigationValue.isSome = true →
        (step s ctx (.OptionFinishClick v hc false)).2.1.typeaheadQuery = none)
    ∧ (∀ (s : ListboxStates) (refs : Refs) (rt : Option Elem) (dom : Dom),
        s ≠ .Idle → listboxLostFocus ctx (.Blur refs rt dom) = true →
        (step s ctx (.Blur refs rt dom)).2.1.typeaheadQuery = none) := by
  refine ⟨fun s hs => ?_, rfl, fun s v hc hopen hnav => ?_,
    fun s refs rt dom hs hlf => ?_⟩
  · cases s <;> first | rfl | exact absurd rfl hs
  · cases s <;>
      simp_all [step, stateEvents, openEvents, commitTransition,
        optionIsSelectable, isOpenState]
  · rw [step_blur s hs]
    simp [blurCascade, hlf]

/-- C10 witness: both clearing behaviours at concrete inputs. -/
theorem clear_typeahead_observable_witness :
    step .Navigating blurCtx .ClearTypeahead =
      (.Navigating, { blurCtx with typeaheadQuery := some "" }, [])
    ∧ (step .Navigating navCtx
        (.OptionFinishClick (some "1") true false)).2.1.typeaheadQuery = none :=
  ⟨(clear_typeahead_observable blurCtx).1 .Navigating (by decide),
   (clear_typeahead_observable navCtx).2.2.1 .Navigating (some "1") true rfl rfl⟩

end Listbox
